import Mathlib

/-!
Shallow embedding of the FCM notification server (`src/server.js`) of the
`todo-server` repository: the recipient resolution of `POST /notify-task`,
the payload building shared by `POST /notify` and `POST /notify-batch`, and
the chunked bulk dispatch with per-item fallback of `POST /notify-batch`.

External collaborators (the Firebase Admin SDK `messaging` client and the
Firestore document store) are modelled as function-valued parameters; the
JavaScript truthiness tests the handlers perform on optional request/record
fields are modelled explicitly by `jsTruthy`.
-/

set_option maxRecDepth 100000

namespace TodoServer

/-- JavaScript truthiness of an optional string field: `undefined` and the
empty string are falsy, every other string is truthy (mirrors the `!x`,
`x || y` and `x ? a : b` tests the handlers apply to string fields). -/
def jsTruthy : Option String → Bool
  | none => false
  | some s => !(s == "")

/-- JavaScript `a || b` on an optional string field with a string default:
yields the field when truthy, the default otherwise. -/
def jsOr (a : Option String) (b : String) : String :=
  if jsTruthy a then a.getD "" else b

/-- A JavaScript value as it can appear in the caller-supplied `data` object
of `/notify` and `/notify-batch` (the fragment the handlers can receive via
JSON plus `undefined`). -/
inductive JsValue where
  | str (s : String)
  | num (n : Int)
  | bool (b : Bool)
  | null
  | undefined
deriving Repr, DecidableEq

/-- JavaScript `String(value)` coercion on a `JsValue`. -/
def jsString : JsValue → String
  | .str s => s
  | .num n => toString n
  | .bool b => if b then "true" else "false"
  | .null => "null"
  | .undefined => "undefined"

/-- JavaScript `s.startsWith(pre)`: `pre` is a prefix of `s` (computable model
of `String.startsWith`, stated over the underlying character lists). -/
def jsStartsWith (s pre : String) : Bool :=
  pre.data.isPrefixOf s.data

/-- The default base origin used by all three handlers:
`"https://todo-app-virid-five.vercel.app"`. -/
def defaultOrigin : String := "https://todo-app-virid-five.vercel.app"

/-- `src/server.js` lines 309-311 and 394-396: `Object.entries(data || {})`
mapped through `([key, value]) => [key, String(value)]` and rebuilt with
`Object.fromEntries`.  The entries of a JavaScript object have pairwise
distinct keys, so `fromEntries` rebuilds exactly the mapped list. -/
def stringifyData (entries : List (String × JsValue)) : List (String × String) :=
  entries.map (fun kv => (kv.1, jsString kv.2))

/-- `src/server.js` lines 313-319 and 398-404: the `webpush.fcmOptions.link`
expression.  `data?.link` truthy and starting with `"http"` passes through;
truthy but not starting with `"http"` is prefixed with the origin
(`data?.origin` when truthy, else the default), inserting `"/"` unless the
link already starts with one; a falsy/absent link yields the origin plus
`"/"`. -/
def fcmLink (dataLink dataOrigin : Option String) : String :=
  if jsTruthy dataLink then
    let l := dataLink.getD ""
    if jsStartsWith l "http" then l
    else jsOr dataOrigin defaultOrigin ++ (if jsStartsWith l "/" then l else "/" ++ l)
  else jsOr dataOrigin defaultOrigin ++ "/"

/-- The provider-ready message built by `/notify` (lines 301-327) and, per
token, by `/notify-batch` (lines 386-412); both handlers build it with the
same field expressions. -/
structure FcmMessage where
  token : String
  title : String
  body : String
  imageUrl : Option String
  data : List (String × String)
  link : String
  icon : String
  badge : String
  sound : String
deriving Repr, DecidableEq

/-- Message construction shared by `/notify` and `/notify-batch`:
`notification.imageUrl` is present only when `imageUrl` is truthy
(`...(imageUrl && {imageUrl})`), `data` is the stringified caller mapping,
the link is `fcmLink`, icon and badge fall back to `"/icons/icon.png"`
(`data?.icon || ...`, `data?.badge || ...`), sound is `"default"`. -/
def mkMessage (title body : String) (imageUrl : Option String)
    (entries : List (String × JsValue)) (dLink dOrigin dIcon dBadge : Option String)
    (token : String) : FcmMessage :=
  { token := token
    title := title
    body := body
    imageUrl := if jsTruthy imageUrl then imageUrl else none
    data := stringifyData entries
    link := fcmLink dLink dOrigin
    icon := jsOr dIcon "/icons/icon.png"
    badge := jsOr dBadge "/icons/icon.png"
    sound := "default" }

/-- A structured error returned by the provider client:
`{ message, code }` as read off a caught Firebase error. -/
structure ProviderError where
  message : String
  code : String
deriving Repr, DecidableEq

/-- One element of `batchResponse.responses` as returned by
`messaging.sendAll`: either a success carrying a `messageId` or a failure
carrying `error.message` and `error.code`. -/
inductive BulkItemResp where
  | ok (messageId : String)
  | err (message code : String)
deriving Repr, DecidableEq

/-- The push provider client (`messaging`), the external collaborator of the
dispatch paths: `sendAll` either throws wholesale (`Except.error`) or returns
one response per message of the chunk; `send` either throws a structured
error or returns a `messageId`. -/
structure Provider (M : Type) where
  sendAll : List M → Except String (List BulkItemResp)
  send : M → Except ProviderError String

/-- One element of the `results` array built by `/notify-batch`: token,
success flag, and `messageId` on success or `error`/`code` on failure. -/
structure DispatchOutcome where
  token : String
  success : Bool
  messageId : String := ""
  errorMsg : String := ""
  errorCode : String := ""
deriving Repr, DecidableEq

/-- The chunk size of the bulk loop, `src/server.js` line 414. -/
def BATCH_SIZE : Nat := 500

/-- Fuel-indexed chunking; the fuel only bounds the recursion and
`l.length` fuel always suffices because every step consumes at least one
element of a non-empty list. -/
def chunkListAux : Nat → List α → List (List α)
  | 0, _ => []
  | fuel + 1, l =>
      if l.isEmpty then []
      else l.take BATCH_SIZE :: chunkListAux fuel (l.drop BATCH_SIZE)

/-- `src/server.js` lines 421-422: the slices `messages.slice(i, i + 500)`
visited by `for (let i = 0; i < messages.length; i += BATCH_SIZE)`. -/
def chunkList (l : List α) : List (List α) :=
  chunkListAux l.length l

/-- `src/server.js` lines 425-443: map `batchResponse.responses` against the
chunk (`batch[index]`) into per-message outcomes.  The pairing by `zip`
agrees with the source's `forEach` index lookup whenever the provider honours
its contract of returning exactly one response per message of the chunk. -/
def bulkChunkOutcomes (batch : List FcmMessage) (resps : List BulkItemResp) :
    List DispatchOutcome :=
  (resps.zip batch).map (fun rm =>
    match rm.1 with
    | .ok id => { token := rm.2.token, success := true, messageId := id }
    | .err msg code =>
        { token := rm.2.token, success := false, errorMsg := msg, errorCode := code })

/-- The bulk loop inside the `try` block (lines 420-444): call `sendAll` on
each chunk in order, accumulating outcomes.  Returns
`(outcomes recorded so far, chunks passed to sendAll, completed?)`; on the
first wholesale `sendAll` failure the loop stops (the exception jumps to the
`catch`), keeping the outcomes already pushed for earlier chunks. -/
def bulkLoop (P : Provider FcmMessage) :
    List (List FcmMessage) → List DispatchOutcome × List (List FcmMessage) × Bool
  | [] => ([], [], true)
  | c :: cs =>
      match P.sendAll c with
      | .error _ => ([], [c], false)
      | .ok rs =>
          let rest := bulkLoop P cs
          (bulkChunkOutcomes c rs ++ rest.1, c :: rest.2.1, rest.2.2)

/-- A single fallback send (lines 450-468): one `messaging.send` call turned
into exactly one outcome. -/
def fallbackOutcome (P : Provider FcmMessage) (m : FcmMessage) : DispatchOutcome :=
  match P.send m with
  | .ok id => { token := m.token, success := true, messageId := id }
  | .error e => { token := m.token, success := false, errorMsg := e.message, errorCode := e.code }

/-- Instrumented result of the `/notify-batch` dispatch: the `results` array,
the chunks passed to `sendAll`, the messages passed to individual `send`
calls, and whether the `catch` fallback ran. -/
structure DispatchTrace where
  results : List DispatchOutcome
  bulkCalls : List (List FcmMessage)
  individual : List FcmMessage
  fellBack : Bool
deriving Repr, DecidableEq

/-- `src/server.js` lines 414-469: try the bulk loop over 500-sized chunks;
if any `sendAll` call throws, fall back to sending EVERY message of the input
list individually, appending those outcomes after whatever the bulk loop had
already recorded. -/
def batchDispatch (P : Provider FcmMessage) (messages : List FcmMessage) : DispatchTrace :=
  let r := bulkLoop P (chunkList messages)
  if r.2.2 then
    { results := r.1, bulkCalls := r.2.1, individual := [], fellBack := false }
  else
    { results := r.1 ++ messages.map (fallbackOutcome P)
      bulkCalls := r.2.1
      individual := messages
      fellBack := true }

/-- The JSON body of the 200 response of `/notify-batch` (lines 471-478):
`notified`/`failed` are the success/failure counters, `total` is
`tokens.length`, `results` the outcome array.  The counters are incremented
exactly once per outcome pushed, so they equal the success/failure counts
over `results`. -/
structure BatchSummary where
  notified : Nat
  failed : Nat
  total : Nat
  results : List DispatchOutcome
deriving Repr, DecidableEq

/-- Build the summary from the trace and the input token list. -/
def batchSummaryOf (tokens : List String) (tr : DispatchTrace) : BatchSummary :=
  { notified := (tr.results.filter (fun o => o.success)).length
    failed := (tr.results.filter (fun o => !o.success)).length
    total := tokens.length
    results := tr.results }

/-- The response of `/notify-batch`: a 400 validation error or the 200
summary. -/
inductive BatchResponse where
  | badRequest (error : String)
  | ok (s : BatchSummary)
deriving Repr, DecidableEq

/-- Whether a `/notify-batch` response is the 200 summary response. -/
def BatchResponse.isOkResp : BatchResponse → Bool
  | .ok _ => true
  | .badRequest _ => false

/-- `notified` of the 200 summary (0 for a 400 response). -/
def BatchResponse.respNotified : BatchResponse → Nat
  | .ok s => s.notified
  | .badRequest _ => 0

/-- `failed` of the 200 summary (0 for a 400 response). -/
def BatchResponse.respFailed : BatchResponse → Nat
  | .ok s => s.failed
  | .badRequest _ => 0

/-- `total` of the 200 summary (0 for a 400 response). -/
def BatchResponse.respTotal : BatchResponse → Nat
  | .ok s => s.total
  | .badRequest _ => 0

/-- Length of the `results` array of the 200 summary (0 for a 400 response). -/
def BatchResponse.respResultsLen : BatchResponse → Nat
  | .ok s => s.results.length
  | .badRequest _ => 0

/-- `src/server.js` lines 361-488, the `POST /notify-batch` handler
(`firebaseInitialized` assumed): validate `tokens` (absent, non-array —
both modelled by `none` — or empty is a 400), validate `title`/`body`
truthiness, build one message per token, dispatch, and answer with the
summary.  Besides the response it returns the provider interactions
(`sendAll` chunks, individual `send` messages) for the theorems. -/
def handleNotifyBatch (P : Provider FcmMessage) (tokens : Option (List String))
    (title body : Option String) (imageUrl : Option String)
    (entries : List (String × JsValue)) (dLink dOrigin dIcon dBadge : Option String) :
    BatchResponse × List (List FcmMessage) × List FcmMessage :=
  match tokens with
  | none => (.badRequest "Missing or invalid tokens array", [], [])
  | some ts =>
      if ts.length == 0 then (.badRequest "Missing or invalid tokens array", [], [])
      else if !(jsTruthy title && jsTruthy body) then
        (.badRequest "Missing required fields: title or body", [], [])
      else
        let messages := ts.map
          (mkMessage (title.getD "") (body.getD "") imageUrl entries dLink dOrigin dIcon dBadge)
        let tr := batchDispatch P messages
        (.ok (batchSummaryOf ts tr), tr.bulkCalls, tr.individual)

/-- A Firestore `users/{uid}` document as read by `/notify-task`:
`email` and `fcmToken` are optional fields. -/
structure UserRecord where
  email : Option String
  fcmToken : Option String
deriving Repr, DecidableEq

/-- A Firestore `projects/{id}` document as read by `/notify-task`:
`name`, `createdBy` (the admin uid) and the `users` membership array
(`projectData.users || []` makes an absent array empty). -/
structure ProjectRecord where
  name : Option String
  createdBy : Option String
  users : List String
deriving Repr, DecidableEq

/-- The Firestore store as a read-only lookup: `projects` and `users`
collections; `none` models a document with `exists == false`. -/
structure Store where
  projects : String → Option ProjectRecord
  users : String → Option UserRecord

/-- `src/server.js` lines 169-175: `isAdmin` is true exactly when
`createdBy` is truthy, its user document exists, and that document's
`email` strictly equals `addedBy` (an absent email is `undefined`, never
equal to a string). -/
def isAdminOf (store : Store) (adminUid : Option String) (addedBy : String) : Bool :=
  if jsTruthy adminUid then
    match store.users (adminUid.getD "") with
    | some u => u.email == some addedBy
    | none => false
  else false

/-- `src/server.js` lines 177-203: the `(targetTokens, recipients)` pairs.
In the admin branch, walk the membership array in order, skip the admin uid
itself (`uid === adminUid`), and keep each existing user with a truthy
`fcmToken`, labelled `email || uid`; in the non-admin branch, target the
admin alone when present with a truthy token, labelled `email || adminUid`.
No deduplication of any kind is performed. -/
def resolveTargets (store : Store) (adminUid : Option String) (isAdmin : Bool)
    (assignedUsers : List String) : List (String × String) :=
  if isAdmin then
    assignedUsers.filterMap (fun uid =>
      if some uid == adminUid then none
      else
        match store.users uid with
        | some u =>
            if jsTruthy u.fcmToken then
              some (u.fcmToken.getD "", jsOr u.email uid)
            else none
        | none => none)
  else
    if jsTruthy adminUid then
      match store.users (adminUid.getD "") with
      | some u =>
          if jsTruthy u.fcmToken then
            [(u.fcmToken.getD "", jsOr u.email (adminUid.getD ""))]
          else []
      | none => []
    else []

/-- The message built per target token by `/notify-task`
(`src/server.js` lines 209-232).  The `data` values there are all already
explicit `String(...)` coercions, so the field is a plain string mapping. -/
structure TaskMessage where
  token : String
  title : String
  body : String
  data : List (String × String)
  link : String
  icon : String
  badge : String
  sound : String
deriving Repr, DecidableEq

/-- `src/server.js` lines 209-232: one `/notify-task` message.  `now` stands
for `Date.now()` and `link` for the precomputed `notificationLink`. -/
def mkTaskMessage (pid projectName taskName addedBy : String)
    (taskId addedByName : Option String) (link : String) (now : Nat)
    (token : String) : TaskMessage :=
  { token := token
    title := "New Task Added"
    body := jsOr addedByName addedBy ++ " added new task: " ++ taskName
    data :=
      [("projectId", pid), ("projectName", projectName),
       ("taskId", jsOr taskId ""), ("taskName", taskName),
       ("addedBy", addedBy), ("addedByName", jsOr addedByName addedBy),
       ("createdBy", addedBy), ("createdByName", jsOr addedByName addedBy),
       ("type", "task_created"), ("timestamp", toString now), ("badgeCount", "1")]
    link := link
    icon := "/icons/icon.png"
    badge := "/icons/icon.png"
    sound := "default" }

/-- `src/server.js` lines 237-245: the sequential send loop of
`/notify-task`, counting `(successCount, failureCount)`; every per-message
error is caught, so one failure never aborts the remaining sends. -/
def sendLoop (P : Provider TaskMessage) : List TaskMessage → Nat × Nat
  | [] => (0, 0)
  | m :: ms =>
      let rest := sendLoop P ms
      match P.send m with
      | .ok _ => (rest.1 + 1, rest.2)
      | .error _ => (rest.1, rest.2 + 1)

/-- The response of `/notify-task`: 400 validation error, 404 project not
found, the 200 `"No recipients with FCM tokens"` success with `notified: 0`,
or the 200 success carrying the counters and the recipient labels. -/
inductive TaskResponse where
  | badRequest (error : String)
  | notFound (error : String)
  | noRecipients
  | sent (notified failed : Nat) (recipients : List String)
deriving Repr, DecidableEq

/-- `src/server.js` lines 138-277, the `POST /notify-task` handler
(`firebaseInitialized` assumed; `enc` stands for the external
`encodeURIComponent`, `now` for `Date.now()`).  Besides the response it
returns the messages passed to the provider's `send`. -/
def handleNotifyTask (store : Store) (P : Provider TaskMessage)
    (enc : String → String) (now : Nat)
    (projectId addedBy addedByName taskName taskId origin : Option String) :
    TaskResponse × List TaskMessage :=
  if !(jsTruthy projectId && jsTruthy addedBy && jsTruthy taskName) then
    (.badRequest "Missing required fields: projectId, addedBy, or taskName", [])
  else
    let pid := projectId.getD ""
    match store.projects pid with
    | none => (.notFound "Project not found", [])
    | some p =>
        let projectName := jsOr p.name "Project"
        let baseUrl := jsOr origin defaultOrigin
        let link := baseUrl ++ "/view/" ++ pid ++ "/" ++ enc projectName
        let isAdmin := isAdminOf store p.createdBy (addedBy.getD "")
        let pairs := resolveTargets store p.createdBy isAdmin p.users
        if pairs.isEmpty then (.noRecipients, [])
        else
          let messages := pairs.map (fun tr =>
            mkTaskMessage pid projectName (taskName.getD "") (addedBy.getD "")
              taskId addedByName link now tr.1)
          let counts := sendLoop P messages
          (.sent counts.1 counts.2 (pairs.map (fun tr => tr.2)), messages)

/-- The response of `/notify` (lines 283-355): 400 validation error, the 200
success with the provider `messageId`, the 400 invalid-token classification,
or the 500 failure. -/
inductive SingleResponse where
  | badRequest (error : String)
  | ok (messageId : String)
  | invalidToken (code : String)
  | serverError (message code : String)
deriving Repr, DecidableEq

/-- `src/server.js` lines 283-355, the `POST /notify` handler
(`firebaseInitialized` assumed): validate `token`/`title`/`body`, build a
single message with the shared builder expressions, send it, and classify a
thrown error by its `code` (lines 339-346). -/
def handleNotify (P : Provider FcmMessage) (token title body : Option String)
    (imageUrl : Option String) (entries : List (String × JsValue))
    (dLink dOrigin dIcon dBadge : Option String) : SingleResponse :=
  if !(jsTruthy token && jsTruthy title && jsTruthy body) then
    .badRequest "Missing required fields: token, title, or body"
  else
    let m := mkMessage (title.getD "") (body.getD "") imageUrl entries
      dLink dOrigin dIcon dBadge (token.getD "")
    match P.send m with
    | .ok id => .ok id
    | .error e =>
        if e.code == "messaging/invalid-registration-token"
            || e.code == "messaging/registration-token-not-registered" then
          .invalidToken e.code
        else .serverError e.message e.code

/-- 600 identical tokens, the dispatch size of the spec's chunking example. -/
def toks600 : List String := List.replicate 600 "t"

/-- The 600 messages `/notify-batch` builds from `toks600` with title `"T"`,
body `"B"` and no optional fields. -/
def msgs600 : List FcmMessage :=
  toks600.map (mkMessage "T" "B" none [] none none none none)

/-- A provider whose bulk endpoint succeeds exactly on full 500-sized chunks
(one `.ok` response per message) and throws wholesale on any other chunk, and
whose individual endpoint always succeeds: on 600 messages the first bulk
call succeeds and the second fails. -/
def exChunkProvider : Provider FcmMessage :=
  { sendAll := fun c =>
      if c.length == BATCH_SIZE then .ok (List.replicate c.length (.ok "mid"))
      else .error "bulk endpoint unavailable"
    send := fun _ => .ok "iid" }

/-! ### Helper lemmas -/

/-- The success and failure counters of a dispatch partition its outcome
list. -/
theorem length_filter_success_add (l : List DispatchOutcome) :
    (l.filter (fun o => o.success)).length + (l.filter (fun o => !o.success)).length
      = l.length := by
  induction l with
  | nil => rfl
  | cons o l ih =>
      by_cases h : o.success
      · simp [List.filter_cons, h]
        omega
      · simp [List.filter_cons, h]
        omega

/-- When the provider returns one response per message, a bulk chunk's
outcome list carries exactly the chunk's tokens, in order. -/
theorem bulkChunkOutcomes_tokens (c : List FcmMessage) (rs : List BulkItemResp)
    (h : rs.length = c.length) :
    (bulkChunkOutcomes c rs).map (fun o => o.token) = c.map (fun m => m.token) := by
  induction rs generalizing c with
  | nil =>
      cases c with
      | nil => rfl
      | cons m ms => simp at h
  | cons r rs ih =>
      cases c with
      | nil => simp at h
      | cons m ms =>
          simp only [List.length_cons, Nat.succ.injEq] at h
          cases r with
          | ok id => simp [bulkChunkOutcomes, List.zip_cons_cons] at ih ⊢; exact ih ms h
          | err msg code => simp [bulkChunkOutcomes, List.zip_cons_cons] at ih ⊢; exact ih ms h

/-- With enough fuel, flattening the chunks recovers the input list. -/
theorem chunkListAux_flatten (fuel : Nat) :
    ∀ l : List α, l.length ≤ fuel → (chunkListAux fuel l).flatten = l := by
  induction fuel with
  | zero =>
      intro l h
      have : l = [] := List.length_eq_zero.mp (Nat.le_zero.mp h)
      simp [this, chunkListAux]
  | succ fuel ih =>
      intro l h
      cases l with
      | nil => simp [chunkListAux]
      | cons x xs =>
          have hne : (x :: xs).isEmpty = false := rfl
          have hdrop : ((x :: xs).drop BATCH_SIZE).length ≤ fuel := by
            rw [List.length_drop]
            have : (x :: xs).length ≤ fuel + 1 := h
            simp only [List.length_cons] at this ⊢
            have hb : 1 ≤ BATCH_SIZE := by decide
            omega
          simp only [chunkListAux, hne, Bool.false_eq_true, if_false, List.flatten_cons,
            ih _ hdrop, List.take_append_drop]

/-- Flattening the 500-sized chunks recovers the message list. -/
theorem chunkList_flatten (l : List α) : (chunkList l).flatten = l :=
  chunkListAux_flatten l.length l (Nat.le_refl _)

/-- On exactly 600 messages the chunking yields precisely the two slices
`take 500` and `drop 500` (of lengths 500 and 100). -/
theorem chunkList_of_length_600 (l : List α) (h : l.length = 600) :
    chunkList l = [l.take BATCH_SIZE, l.drop BATCH_SIZE] := by
  have h1 : l ≠ [] := by
    intro hl; rw [hl] at h; simp at h
  have h2 : (l.drop BATCH_SIZE).length = 100 := by
    rw [List.length_drop, h]; rfl
  have h3 : l.drop BATCH_SIZE ≠ [] := by
    intro hl; rw [hl] at h2; simp at h2
  have h4 : (l.drop BATCH_SIZE).take BATCH_SIZE = l.drop BATCH_SIZE :=
    List.take_of_length_le (by rw [h2]; decide)
  have h5 : (l.drop BATCH_SIZE).drop BATCH_SIZE = [] :=
    List.drop_eq_nil_of_le (by rw [h2]; decide)
  have e1 : l.isEmpty = false := by simp [List.isEmpty_iff, h1]
  have e2 : (l.drop BATCH_SIZE).isEmpty = false := by simp [List.isEmpty_iff, h3]
  rw [chunkList, h]
  rw [show (600 : Nat) = 599 + 1 from rfl, chunkListAux, e1]
  simp only [Bool.false_eq_true, if_false]
  rw [show (599 : Nat) = 598 + 1 from rfl, chunkListAux, e2]
  simp only [Bool.false_eq_true, if_false, h4, h5]
  rw [show (598 : Nat) = 597 + 1 from rfl, chunkListAux]
  rfl

/-- The property that the provider's bulk endpoint honours its contract on a
chunk: it returns one response per message. -/
def bulkOkOn (P : Provider FcmMessage) (c : List FcmMessage) : Prop :=
  ∃ rs, P.sendAll c = Except.ok rs ∧ rs.length = c.length

/-- When every chunk's bulk call succeeds with one response per message, the
bulk loop completes, calls `sendAll` once per chunk in order, and records
outcomes whose tokens are exactly the chunks' tokens in order. -/
theorem bulkLoop_allOk (P : Provider FcmMessage) (cs : List (List FcmMessage))
    (H : ∀ c ∈ cs, bulkOkOn P c) :
    (bulkLoop P cs).2.2 = true ∧ (bulkLoop P cs).2.1 = cs ∧
      (bulkLoop P cs).1.map (fun o => o.token) = cs.flatten.map (fun m => m.token) := by
  induction cs with
  | nil => exact ⟨rfl, rfl, rfl⟩
  | cons c cs ih =>
      obtain ⟨rs, hok, hlen⟩ := H c (List.mem_cons_self c cs)
      have ih' := ih (fun c hc => H c (List.mem_cons_of_mem _ hc))
      simp only [bulkLoop, hok]
      refine ⟨ih'.1, by rw [ih'.2.1], ?_⟩
      rw [List.map_append, bulkChunkOutcomes_tokens c rs hlen, ih'.2.2,
        List.flatten_cons, List.map_append]

/-- When the first bulk call throws, the bulk loop records nothing, has made
exactly that one call, and reports failure. -/
theorem bulkLoop_firstFails (P : Provider FcmMessage) (c : List FcmMessage)
    (cs : List (List FcmMessage)) (e : String) (h : P.sendAll c = Except.error e) :
    bulkLoop P (c :: cs) = ([], [c], false) := by
  simp [bulkLoop, h]

/-- The fallback outcome of a message carries that message's token. -/
theorem fallbackOutcome_token (P : Provider FcmMessage) (m : FcmMessage) :
    (fallbackOutcome P m).token = m.token := by
  unfold fallbackOutcome
  cases P.send m <;> rfl

/-- When the admin uid is falsy (absent or empty), `isAdmin` is false. -/
theorem isAdminOf_of_not_truthy (store : Store) (aU : Option String) (addedBy : String)
    (h : jsTruthy aU = false) : isAdminOf store aU addedBy = false := by
  simp [isAdminOf, h]

/-- When the admin uid exists, its user document exists and that document's
email equals the acting user, `isAdmin` is true. -/
theorem isAdminOf_eq_true (store : Store) (aU : Option String) (addedBy : String)
    (au : UserRecord) (h1 : jsTruthy aU = true)
    (h2 : store.users (aU.getD "") = some au) (h3 : au.email = some addedBy) :
    isAdminOf store aU addedBy = true := by
  simp [isAdminOf, h1, h2, h3]

/-- In the non-admin branch with a falsy admin uid, the resolver yields no
targets. -/
theorem resolveTargets_of_not_truthy (store : Store) (aU : Option String)
    (users : List String) (h : jsTruthy aU = false) :
    resolveTargets store aU false users = [] := by
  simp [resolveTargets, h]

/-- In the admin branch, the resolver is exactly: the members other than the
admin uid, each kept when their user document exists with a truthy
`fcmToken` (members lacking one are dropped), in membership order. -/
theorem resolveTargets_admin_eq (store : Store) (aU : Option String)
    (users : List String) :
    resolveTargets store aU true users =
      (users.filter (fun uid => !(some uid == aU))).filterMap (fun uid =>
        match store.users uid with
        | some u =>
            if jsTruthy u.fcmToken then some (u.fcmToken.getD "", jsOr u.email uid)
            else none
        | none => none) := by
  induction users with
  | nil => rfl
  | cons v vs ih =>
      simp only [resolveTargets, if_true] at ih ⊢
      rw [List.filterMap_cons, List.filter_cons]
      cases h : (some v == aU) with
      | true =>
          simp only [eq_self_iff_true, if_true, Bool.not_true, Bool.false_eq_true, if_false]
          exact ih
      | false =>
          simp only [Bool.false_eq_true, if_false, Bool.not_false, eq_self_iff_true, if_true,
            List.filterMap_cons]
          rw [ih]

/-- C5 (amended): duplicated members are NOT deduplicated: a member uid
other than the admin, whose user document exists with a truthy token,
contributes that token to the resolved recipient list at least once per
occurrence in the membership array (so a member listed twice yields its
token twice, in membership order). -/
theorem claim_C5_amended (store : Store) (aU : Option String) (uid : String)
    (u : UserRecord) (h1 : (some uid == aU) = false) (h2 : store.users uid = some u)
    (h3 : jsTruthy u.fcmToken = true) (users : List String) :
    users.count uid ≤
      ((resolveTargets store aU true users).map Prod.fst).count (u.fcmToken.getD "") := by
  induction users with
  | nil => simp [resolveTargets]
  | cons v vs ih =>
      rw [List.count_cons]
      simp only [resolveTargets, if_true] at ih ⊢
      rw [List.filterMap_cons]
      by_cases hv : v = uid
      · subst hv
        simp only [h1, Bool.false_eq_true, if_false, h2, h3, if_true]
        rw [List.map_cons, List.count_cons]
        simp only [beq_self_eq_true, if_true]
        omega
      · have hvb : (v == uid) = false := by
          simp [hv]
        rw [hvb]
        cases hfv : (if some v == aU then none
            else match store.users v with
              | some w =>
                  if jsTruthy w.fcmToken then some (w.fcmToken.getD "", jsOr w.email v)
                  else none
              | none => none) with
        | none => simpa [hfv] using ih
        | some b =>
            rw [List.map_cons, List.count_cons]
            simp only [Bool.false_eq_true, if_false]
            omega

/-- The sequential `/notify-task` send loop counts every message exactly
once: successes plus failures equal the number of messages. -/
theorem sendLoop_counts (P : Provider TaskMessage) (ms : List TaskMessage) :
    (sendLoop P ms).1 + (sendLoop P ms).2 = ms.length := by
  induction ms with
  | nil => rfl
  | cons m ms ih =>
      simp only [sendLoop, List.length_cons]
      cases P.send m <;> simp <;> omega

/-- A non-empty message list always has the `take BATCH_SIZE` slice as its
first chunk. -/
theorem chunkList_head (l : List α) (h : l ≠ []) :
    ∃ rest, chunkList l = l.take BATCH_SIZE :: rest := by
  cases l with
  | nil => exact absurd rfl h
  | cons x xs => exact ⟨_, rfl⟩

/-- When the bulk loop completes, the dispatch returns its outcomes and
calls, with no individual sends and no fallback. -/
theorem batchDispatch_completed (P : Provider FcmMessage) (msgs : List FcmMessage)
    (h : (bulkLoop P (chunkList msgs)).2.2 = true) :
    batchDispatch P msgs =
      { results := (bulkLoop P (chunkList msgs)).1
        bulkCalls := (bulkLoop P (chunkList msgs)).2.1
        individual := []
        fellBack := false } := by
  simp only [batchDispatch]
  rw [h]
  rfl

/-- When the bulk loop fails, the dispatch appends one fallback outcome per
input message after the outcomes the bulk loop had recorded. -/
theorem batchDispatch_fellBack (P : Provider FcmMessage) (msgs : List FcmMessage)
    (h : (bulkLoop P (chunkList msgs)).2.2 = false) :
    batchDispatch P msgs =
      { results := (bulkLoop P (chunkList msgs)).1 ++ msgs.map (fallbackOutcome P)
        bulkCalls := (bulkLoop P (chunkList msgs)).2.1
        individual := msgs
        fellBack := true } := by
  simp only [batchDispatch]
  rw [h]
  rfl

/-! ### Concrete fixtures for witnesses and counterexamples -/

/-- A provider whose bulk endpoint always succeeds with one `.ok` response
per message and whose individual endpoint always succeeds. -/
def goodProvider : Provider FcmMessage :=
  { sendAll := fun c => .ok (List.replicate c.length (.ok "m"))
    send := fun _ => .ok "i" }

/-- The two messages `/notify-batch` builds from tokens `["t1", "t2"]`. -/
def msgs2 : List FcmMessage :=
  ["t1", "t2"].map (mkMessage "T" "B" none [] none none none none)

/-- A `/notify-task` provider whose individual sends always succeed. -/
def taskOkProvider : Provider TaskMessage :=
  { sendAll := fun _ => .error "unused"
    send := fun _ => .ok "mid" }

/-- A concrete stand-in for the external `encodeURIComponent`. -/
def idEnc : String → String := fun s => s

/-- A store whose project `"p1"` has no `createdBy` field but does have a
member `"u1"` holding a delivery token. -/
def storeNoOwner : Store :=
  { projects := fun pid =>
      if pid == "p1" then some { name := some "Proj", createdBy := none, users := ["u1"] }
      else none
    users := fun uid =>
      if uid == "u1" then some { email := some "u1@example.com", fcmToken := some "t1" }
      else none }

/-- A store whose project `"p2"` is administered by `"a"` and lists the
member `"u"` (token `"t"`) twice. -/
def storeDup : Store :=
  { projects := fun pid =>
      if pid == "p2" then
        some { name := some "Proj", createdBy := some "a", users := ["u", "u"] }
      else none
    users := fun uid =>
      if uid == "a" then some { email := some "alice@example.com", fcmToken := none }
      else if uid == "u" then some { email := some "bob@example.com", fcmToken := some "t" }
      else none }

/-- A store whose project `"p3"` is administered by `"a"` and has the three
members `["a", "b", "c"]`; `"b"` holds a token, `"c"` does not. -/
def storeOwner : Store :=
  { projects := fun pid =>
      if pid == "p3" then
        some { name := some "Proj", createdBy := some "a", users := ["a", "b", "c"] }
      else none
    users := fun uid =>
      if uid == "a" then some { email := some "alice@example.com", fcmToken := some "ta" }
      else if uid == "b" then some { email := some "b@example.com", fcmToken := some "tb" }
      else if uid == "c" then some { email := some "c@example.com", fcmToken := none }
      else none }

/-! ### Claim theorems -/

/-- C7: payload building normalizes the link as the spec states: the
relative link `"/view/abc"` with origin `"https://x"` builds to
`"https://x/view/abc"`, the absolute link `"https://y/z"` passes through
unchanged (with or without a supplied origin), and an absent link with
origin `"https://x"` builds to `"https://x/"`. -/
theorem claim_C7_link_normalization :
    fcmLink (some "/view/abc") (some "https://x") = "https://x/view/abc" ∧
    fcmLink (some "https://y/z") (some "https://x") = "https://y/z" ∧
    fcmLink (some "https://y/z") none = "https://y/z" ∧
    fcmLink none (some "https://x") = "https://x/" :=
  ⟨by decide, by rfl, by rfl, by rfl⟩

/-- C9: every entry of the caller-supplied structured-data mapping leaves the
payload builder with its value replaced by the JavaScript string coercion of
the original value, whatever its original type, and every entry of the built
`data` field arises that way from an input entry. -/
theorem claim_C9_data_stringified (title body : String) (imageUrl : Option String)
    (entries : List (String × JsValue)) (dLink dOrigin dIcon dBadge : Option String)
    (token : String) (k : String) (v : JsValue) (hm : (k, v) ∈ entries) :
    (k, jsString v) ∈
        (mkMessage title body imageUrl entries dLink dOrigin dIcon dBadge token).data ∧
    ∀ p ∈ (mkMessage title body imageUrl entries dLink dOrigin dIcon dBadge token).data,
      ∃ v0, (p.1, v0) ∈ entries ∧ p.2 = jsString v0 := by
  constructor
  · exact List.mem_map_of_mem _ hm
  · intro p hp
    simp only [mkMessage, stringifyData, List.mem_map] at hp
    obtain ⟨kv, hkv, hEq⟩ := hp
    refine ⟨kv.2, ?_, ?_⟩
    · rw [← hEq]
      exact hkv
    · rw [← hEq]

/-- Witness for C9 at the concrete entry `("a", 5)`: the number 5 leaves the
builder as the string `"5"`. -/
theorem claim_C9_witness :
    ("a", JsValue.num 5) ∈ [("a", JsValue.num 5)] ∧
    jsString (JsValue.num 5) = "5" ∧
    ("a", jsString (JsValue.num 5)) ∈
      (mkMessage "T" "B" none [("a", JsValue.num 5)] none none none none "t").data :=
  ⟨by decide, by rfl,
    (claim_C9_data_stringified "T" "B" none [("a", JsValue.num 5)] none none none none
      "t" "a" (JsValue.num 5) (by decide)).1⟩

/-- C10: any truthy `data.link` that starts with the four characters
`"http"` is passed through unchanged — absolute URL or not — and a link not
starting with `"http"` is prefixed with the origin (the supplied one when
truthy, else the default), inserting `"/"` exactly when the link does not
start with one. -/
theorem claim_C10_link_passthrough (l : String) (o : Option String) (h : ¬ l = "") :
    (jsStartsWith l "http" = true → fcmLink (some l) o = l) ∧
    (jsStartsWith l "http" = false →
      fcmLink (some l) o =
        jsOr o defaultOrigin ++ (if jsStartsWith l "/" then l else "/" ++ l)) := by
  have ht : jsTruthy (some l) = true := by
    simp [jsTruthy, h]
  constructor
  · intro hs
    simp [fcmLink, ht, hs]
  · intro hs
    simp [fcmLink, ht, hs]

/-- Witness for C10 at the non-URL link `"httpfoo"`: it is passed through
unchanged because it starts with `"http"`. -/
theorem claim_C10_witness :
    ¬ "httpfoo" = "" ∧ jsStartsWith "httpfoo" "http" = true ∧
    fcmLink (some "httpfoo") none = "httpfoo" :=
  ⟨by decide, by rfl,
    (claim_C10_link_passthrough "httpfoo" none (by decide)).1 (by rfl)⟩

/-- C4 counterexample: for the concrete project `"p1"` that has no
`createdBy` (no owner configured) the handler does NOT fail with a
structured `NoOwnerConfigured` error — no such error exists in the code —
but returns the 200 success response `"No recipients with FCM tokens"`
(`notified: 0`), contacting nobody. -/
theorem claim_C4_counterexample :
    handleNotifyTask storeNoOwner taskOkProvider idEnc 0
        (some "p1") (some "alice@example.com") none (some "Task") none none
      = (.noRecipients, []) := by decide

/-- C4 (amended): for every project record without a truthy
`createdBy`/owner, a valid `/notify-task` request resolving that project
succeeds with the 200 `"No recipients with FCM tokens"` response
(`notified: 0`); no structured failure is raised and no provider send
occurs. -/
theorem claim_C4_amended (store : Store) (P : Provider TaskMessage)
    (enc : String → String) (now : Nat)
    (projectId addedBy addedByName taskName taskId origin : Option String)
    (p : ProjectRecord)
    (hv : (jsTruthy projectId && jsTruthy addedBy && jsTruthy taskName) = true)
    (hp : store.projects (projectId.getD "") = some p)
    (hno : jsTruthy p.createdBy = false) :
    handleNotifyTask store P enc now projectId addedBy addedByName taskName taskId origin
      = (.noRecipients, []) := by
  simp only [handleNotifyTask, hv, Bool.not_true, Bool.false_eq_true, if_false, hp]
  rw [isAdminOf_of_not_truthy store p.createdBy (addedBy.getD "") hno,
    resolveTargets_of_not_truthy store p.createdBy p.users hno]
  rfl

/-- Witness for the amended C4 at the concrete ownerless store. -/
theorem claim_C4_witness :
    (jsTruthy (some "p1") && jsTruthy (some "alice@example.com")
        && jsTruthy (some "Task")) = true ∧
    storeNoOwner.projects "p1" = some ⟨some "Proj", none, ["u1"]⟩ ∧
    handleNotifyTask storeNoOwner taskOkProvider idEnc 0
        (some "p1") (some "alice@example.com") none (some "Task") none none
      = (.noRecipients, []) :=
  ⟨by decide, by decide,
    claim_C4_amended storeNoOwner taskOkProvider idEnc 0 (some "p1")
      (some "alice@example.com") none (some "Task") none none
      ⟨some "Proj", none, ["u1"]⟩ (by decide) (by decide) (by decide)⟩

/-- C5 counterexample: in the concrete store whose project lists member
`"u"` (token `"t"`) twice, an admin-initiated `/notify-task` sends TWO
messages to token `"t"` — the resolved recipient list contains the token
twice, not exactly once as the claim states. -/
theorem claim_C5_counterexample :
    ((handleNotifyTask storeDup taskOkProvider idEnc 0
        (some "p2") (some "alice@example.com") none (some "Task") none none).2.map
          (fun m => m.token)).count "t" = 2 ∧
    ¬ (((handleNotifyTask storeDup taskOkProvider idEnc 0
        (some "p2") (some "alice@example.com") none (some "Task") none none).2.map
          (fun m => m.token)).count "t" = 1) := by
  constructor <;> decide

/-- Witness for the amended C5: with member `"u"` listed twice, the resolved
token list holds `"t"` at least twice. -/
theorem claim_C5_witness :
    (some "u" == some "a") = false ∧
    storeDup.users "u" = some ⟨some "bob@example.com", some "t"⟩ ∧
    ["u", "u"].count "u" ≤
      ((resolveTargets storeDup (some "a") true ["u", "u"]).map Prod.fst).count "t" :=
  ⟨by decide, by decide,
    claim_C5_amended storeDup (some "a") "u" ⟨some "bob@example.com", some "t"⟩
      (by decide) (by decide) (by decide) ["u", "u"]⟩

/-- C8: when the acting user is the project owner (the `createdBy` uid is
truthy, its user document exists and carries the acting user's email), the
resolved recipient list is exactly the members of the project's membership
array other than the owner that resolve to a user document with a truthy
delivery token — members lacking one are dropped silently — in membership
order. -/
theorem claim_C8_owner_broadcast (store : Store) (aU : Option String) (addedBy : String)
    (au : UserRecord) (users : List String)
    (h1 : jsTruthy aU = true) (h2 : store.users (aU.getD "") = some au)
    (h3 : au.email = some addedBy) :
    isAdminOf store aU addedBy = true ∧
    resolveTargets store aU (isAdminOf store aU addedBy) users =
      (users.filter (fun uid => !(some uid == aU))).filterMap (fun uid =>
        match store.users uid with
        | some u =>
            if jsTruthy u.fcmToken then some (u.fcmToken.getD "", jsOr u.email uid)
            else none
        | none => none) := by
  have hA := isAdminOf_eq_true store aU addedBy au h1 h2 h3
  exact ⟨hA, by rw [hA, resolveTargets_admin_eq]⟩

/-- Witness for C8 at the concrete 3-member store: of members
`["a", "b", "c"]` with owner `"a"`, only `"b"` (which holds token `"tb"`)
is resolved; the tokenless `"c"` is dropped. -/
theorem claim_C8_witness :
    storeOwner.users "a" = some ⟨some "alice@example.com", some "ta"⟩ ∧
    resolveTargets storeOwner (some "a")
        (isAdminOf storeOwner (some "a") "alice@example.com") ["a", "b", "c"]
      = [("tb", "b@example.com")] := by
  refine ⟨by decide, ?_⟩
  rw [(claim_C8_owner_broadcast storeOwner (some "a") "alice@example.com"
    ⟨some "alice@example.com", some "ta"⟩ ["a", "b", "c"]
    (by decide) (by decide) (by decide)).2]
  decide

/-- C1 counterexample: dispatching 600 messages against a provider whose
first bulk call succeeds and whose second throws, the fallback re-sends and
re-counts ALL 600 messages on top of the 500 outcomes already recorded, so
the returned summary has `notified + failed = 1100` while
`total = 600` — the claimed invariant fails. -/
theorem claim_C1_counterexample :
    (handleNotifyBatch exChunkProvider (some toks600) (some "T") (some "B")
          none [] none none none none).1.respNotified
        + (handleNotifyBatch exChunkProvider (some toks600) (some "T") (some "B")
          none [] none none none none).1.respFailed = 1100 ∧
    (handleNotifyBatch exChunkProvider (some toks600) (some "T") (some "B")
          none [] none none none none).1.respTotal = 600 ∧
    ¬ ((handleNotifyBatch exChunkProvider (some toks600) (some "T") (some "B")
          none [] none none none none).1.respNotified
        + (handleNotifyBatch exChunkProvider (some toks600) (some "T") (some "B")
          none [] none none none none).1.respFailed
      = (handleNotifyBatch exChunkProvider (some toks600) (some "T") (some "B")
          none [] none none none none).1.respTotal) := by
  refine ⟨by rfl, by rfl, by decide⟩

/-- C1 (amended): `successCount + failureCount` always equals the number of
recorded outcomes; it equals `totalAttempted` (the input length) for
`/notify-task` dispatches and for `/notify-batch` dispatches in which either
every bulk call succeeds with one response per message, or the very first
bulk call fails (so only the fallback records outcomes).  When a bulk call
fails after earlier chunks succeeded, the fallback re-counts every message,
so the sum exceeds `totalAttempted` (see the counterexample). -/
theorem claim_C1_amended (P : Provider FcmMessage) (Pt : Provider TaskMessage)
    (ts : List String) (msgs : List FcmMessage) (tmsgs : List TaskMessage)
    (hlen : msgs.length = ts.length) :
    ((batchSummaryOf ts (batchDispatch P msgs)).notified
        + (batchSummaryOf ts (batchDispatch P msgs)).failed
      = (batchDispatch P msgs).results.length) ∧
    ((∀ c ∈ chunkList msgs, bulkOkOn P c) →
      (batchSummaryOf ts (batchDispatch P msgs)).notified
          + (batchSummaryOf ts (batchDispatch P msgs)).failed
        = (batchSummaryOf ts (batchDispatch P msgs)).total) ∧
    (∀ e, msgs ≠ [] → P.sendAll (msgs.take BATCH_SIZE) = Except.error e →
      (batchSummaryOf ts (batchDispatch P msgs)).notified
          + (batchSummaryOf ts (batchDispatch P msgs)).failed
        = (batchSummaryOf ts (batchDispatch P msgs)).total) ∧
    ((sendLoop Pt tmsgs).1 + (sendLoop Pt tmsgs).2 = tmsgs.length) := by
  have hsum : ∀ tr : DispatchTrace,
      (batchSummaryOf ts tr).notified + (batchSummaryOf ts tr).failed
        = tr.results.length := by
    intro tr
    exact length_filter_success_add tr.results
  refine ⟨hsum _, ?_, ?_, sendLoop_counts Pt tmsgs⟩
  · intro H
    have h := bulkLoop_allOk P (chunkList msgs) H
    have hres : (batchDispatch P msgs).results = (bulkLoop P (chunkList msgs)).1 := by
      rw [batchDispatch_completed P msgs h.1]
    have hlen2 : (bulkLoop P (chunkList msgs)).1.length = msgs.length := by
      have hm := congrArg List.length h.2.2
      simp only [List.length_map] at hm
      rw [hm, congrArg List.length (chunkList_flatten msgs)]
    rw [hsum _, hres, hlen2]
    simp [batchSummaryOf, hlen]
  · intro e hne hfail
    obtain ⟨rest, hrest⟩ := chunkList_head msgs hne
    have hloop : bulkLoop P (chunkList msgs) = ([], [msgs.take BATCH_SIZE], false) := by
      rw [hrest]
      exact bulkLoop_firstFails P _ rest e hfail
    have hfb : (bulkLoop P (chunkList msgs)).2.2 = false := by rw [hloop]
    have hres := batchDispatch_fellBack P msgs hfb
    rw [hsum _, hres]
    simp only [hloop, List.nil_append, List.length_map]
    simp [batchSummaryOf, hlen]

/-- Witness for the amended C1 on a 2-token dispatch whose single bulk call
succeeds: `notified + failed = total = 2`. -/
theorem claim_C1_witness :
    (batchSummaryOf ["t1", "t2"] (batchDispatch goodProvider msgs2)).notified
        + (batchSummaryOf ["t1", "t2"] (batchDispatch goodProvider msgs2)).failed
      = (batchSummaryOf ["t1", "t2"] (batchDispatch goodProvider msgs2)).total := by
  refine (claim_C1_amended goodProvider taskOkProvider ["t1", "t2"] msgs2 [] (by rfl)).2.1 ?_
  intro c hc
  have hcl : chunkList msgs2 = [msgs2] := by rfl
  rw [hcl] at hc
  have hceq : c = msgs2 := by simpa using hc
  subst hceq
  exact ⟨List.replicate msgs2.length (BulkItemResp.ok "m"), rfl, by simp⟩

/-- C2 counterexample: in the same 600-message dispatch with a failing
second bulk call, the outcome list has 1100 entries — 500 from the first
chunk plus one fallback outcome for every one of the 600 input messages —
not one entry per input message. -/
theorem claim_C2_counterexample :
    (handleNotifyBatch exChunkProvider (some toks600) (some "T") (some "B")
        none [] none none none none).1.respResultsLen = 1100 ∧
    ¬ ((handleNotifyBatch exChunkProvider (some toks600) (some "T") (some "B")
        none [] none none none none).1.respResultsLen = toks600.length) := by
  refine ⟨by rfl, by decide⟩

/-- C2 (amended): the outcome list matches the input list one-to-one, in
order (same tokens at the same positions), whenever every bulk call succeeds
with one response per message, and likewise when the first bulk call fails
(the outcomes are then exactly one fallback outcome per message, in order).
When a later bulk call fails, the outcomes are instead the earlier chunks'
outcomes followed by one fallback outcome per input message. -/
theorem claim_C2_amended (P : Provider FcmMessage) (msgs : List FcmMessage) :
    ((∀ c ∈ chunkList msgs, bulkOkOn P c) →
      (batchDispatch P msgs).results.map (fun o => o.token)
        = msgs.map (fun m => m.token)) ∧
    (∀ e, msgs ≠ [] → P.sendAll (msgs.take BATCH_SIZE) = Except.error e →
      (batchDispatch P msgs).results = msgs.map (fallbackOutcome P) ∧
      (batchDispatch P msgs).results.map (fun o => o.token)
        = msgs.map (fun m => m.token)) ∧
    ((batchDispatch P msgs).fellBack = true →
      ∃ pre, (batchDispatch P msgs).results = pre ++ msgs.map (fallbackOutcome P)) := by
  refine ⟨?_, ?_, ?_⟩
  · intro H
    have h := bulkLoop_allOk P (chunkList msgs) H
    have hres : (batchDispatch P msgs).results = (bulkLoop P (chunkList msgs)).1 := by
      rw [batchDispatch_completed P msgs h.1]
    rw [hres, h.2.2, chunkList_flatten]
  · intro e hne hfail
    obtain ⟨rest, hrest⟩ := chunkList_head msgs hne
    have hloop : bulkLoop P (chunkList msgs) = ([], [msgs.take BATCH_SIZE], false) := by
      rw [hrest]
      exact bulkLoop_firstFails P _ rest e hfail
    have hfb : (bulkLoop P (chunkList msgs)).2.2 = false := by rw [hloop]
    have hres := batchDispatch_fellBack P msgs hfb
    rw [hres]
    simp only [hloop, List.nil_append]
    refine ⟨by trivial, ?_⟩
    rw [List.map_map]
    exact List.map_congr_left (fun m _ => fallbackOutcome_token P m)
  · intro hfb
    cases hc : (bulkLoop P (chunkList msgs)).2.2 with
    | true =>
        rw [batchDispatch_completed P msgs hc] at hfb
        simp at hfb
    | false =>
        rw [batchDispatch_fellBack P msgs hc]
        exact ⟨(bulkLoop P (chunkList msgs)).1, rfl⟩

/-- Witness for the amended C2 on the 2-token all-bulk-success dispatch:
the outcome tokens are exactly `["t1", "t2"]`. -/
theorem claim_C2_witness :
    (batchDispatch goodProvider msgs2).results.map (fun o => o.token)
      = msgs2.map (fun m => m.token) := by
  refine (claim_C2_amended goodProvider msgs2).1 ?_
  intro c hc
  have hcl : chunkList msgs2 = [msgs2] := by rfl
  rw [hcl] at hc
  have hceq : c = msgs2 := by simpa using hc
  subst hceq
  exact ⟨List.replicate msgs2.length (BulkItemResp.ok "m"), rfl, by simp⟩

/-- C3 counterexample: dispatching 600 messages where the second bulk call
fails wholesale does issue 2 bulk calls, but then performs 600 individual
sends — the whole input list, re-sending the already-delivered first chunk —
not just the 100 messages of the failed chunk. -/
theorem claim_C3_counterexample :
    (batchDispatch exChunkProvider msgs600).bulkCalls.length = 2 ∧
    (batchDispatch exChunkProvider msgs600).individual.length = 600 ∧
    ¬ ((batchDispatch exChunkProvider msgs600).individual.length = 100) := by
  refine ⟨by rfl, by rfl, by decide⟩

/-- C3 (amended): for a dispatch of 600 messages whose first bulk call
succeeds (with one response per message) and whose second fails wholesale,
exactly 2 bulk calls are issued — the 500-message and the 100-message
slices — and the fallback then attempts an individual send for ALL 600
input messages (the first chunk's 500 are re-sent), not only the failed
chunk's 100. -/
theorem claim_C3_amended (P : Provider FcmMessage) (msgs : List FcmMessage)
    (rs : List BulkItemResp) (e : String)
    (h600 : msgs.length = 600)
    (h1 : P.sendAll (msgs.take BATCH_SIZE) = Except.ok rs)
    (_hrs : rs.length = BATCH_SIZE)
    (h2 : P.sendAll (msgs.drop BATCH_SIZE) = Except.error e) :
    (batchDispatch P msgs).bulkCalls = [msgs.take BATCH_SIZE, msgs.drop BATCH_SIZE] ∧
    (msgs.take BATCH_SIZE).length = 500 ∧
    (msgs.drop BATCH_SIZE).length = 100 ∧
    (batchDispatch P msgs).individual = msgs ∧
    (batchDispatch P msgs).individual.length = 600 := by
  have hc := chunkList_of_length_600 msgs h600
  have hloop : bulkLoop P (chunkList msgs)
      = (bulkChunkOutcomes (msgs.take BATCH_SIZE) rs, [msgs.take BATCH_SIZE, msgs.drop BATCH_SIZE], false) := by
    rw [hc]
    simp [bulkLoop, h1, h2]
  have hfb : (bulkLoop P (chunkList msgs)).2.2 = false := by rw [hloop]
  have hres := batchDispatch_fellBack P msgs hfb
  refine ⟨?_, ?_, ?_, ?_, ?_⟩
  · rw [hres]
    simp only [hloop]
  · rw [List.length_take, h600]
    decide
  · rw [List.length_drop, h600]
    decide
  · rw [hres]
  · rw [hres]
    exact h600

/-- Witness for the amended C3 at the concrete 600-message scenario. -/
theorem claim_C3_witness :
    exChunkProvider.sendAll (msgs600.take BATCH_SIZE)
        = Except.ok (List.replicate 500 (BulkItemResp.ok "mid")) ∧
    exChunkProvider.sendAll (msgs600.drop BATCH_SIZE)
        = Except.error "bulk endpoint unavailable" ∧
    (batchDispatch exChunkProvider msgs600).individual = msgs600 := by
  refine ⟨by rfl, by rfl, ?_⟩
  exact (claim_C3_amended exChunkProvider msgs600
    (List.replicate 500 (BulkItemResp.ok "mid")) "bulk endpoint unavailable"
    (by rfl) (by rfl) (by rfl) (by rfl)).2.2.2.1

/-- C6 counterexample: a `/notify-batch` request with an empty tokens array
does NOT receive a zero summary — it is rejected with the 400 validation
error `"Missing or invalid tokens array"` (and no provider call happens). -/
theorem claim_C6_counterexample :
    (handleNotifyBatch exChunkProvider (some []) (some "T") (some "B")
        none [] none none none none).1.isOkResp = false ∧
    handleNotifyBatch exChunkProvider (some []) (some "T") (some "B")
        none [] none none none none
      = (.badRequest "Missing or invalid tokens array", [], []) :=
  ⟨by rfl, by rfl⟩

/-- C6 (amended): an empty (or absent) tokens array is rejected at
validation with the 400 error `"Missing or invalid tokens array"` before any
provider interaction — no summary is produced; the dispatch loop itself,
run on an empty message list, performs no bulk and no individual provider
calls and yields `successCount = failureCount = totalAttempted = 0`. -/
theorem claim_C6_amended (P : Provider FcmMessage) (title body imageUrl : Option String)
    (entries : List (String × JsValue)) (dLink dOrigin dIcon dBadge : Option String) :
    handleNotifyBatch P (some []) title body imageUrl entries dLink dOrigin dIcon dBadge
        = (.badRequest "Missing or invalid tokens array", [], []) ∧
    handleNotifyBatch P none title body imageUrl entries dLink dOrigin dIcon dBadge
        = (.badRequest "Missing or invalid tokens array", [], []) ∧
    batchDispatch P [] = ⟨[], [], [], false⟩ ∧
    batchSummaryOf [] (batchDispatch P []) = ⟨0, 0, 0, []⟩ :=
  ⟨rfl, rfl, rfl, rfl⟩

end TodoServer
